import Mathlib

/-
Verification of the oCIS proxy authentication middleware
(services/proxy/pkg/middleware/authentication.go, given as src/unnamed/part_002).

The Go code is shallowly embedded: pure Lean functions mirror the Go
functions, the `http.ResponseWriter` header state is threaded explicitly,
and the Go `map[string]string` of user-agent locks is carried as an
association list whose order stands for one concrete map-iteration order.
-/

namespace OcisProxy

/-! ## Models of the Go `strings` primitives used by the middleware -/

/-- Does the first list occur as an initial segment of the second?
Used to model both `strings.HasPrefix` and the anchored step of
`strings.Contains`. -/
def spre : List Char → List Char → Bool
  | [], _ => true
  | _ :: _, [] => false
  | p :: ps, c :: cs => p == c && spre ps cs

/-- Model of Go `strings.Contains(s, sub)`: `sub` occurs somewhere in `s`. -/
def scontains : List Char → List Char → Bool
  | [], sub => spre sub []
  | c :: rest, sub => spre sub (c :: rest) || scontains rest sub

/-- Go `strings.Contains` on strings. -/
def goContains (s sub : String) : Bool :=
  scontains s.data sub.data

/-- Go `strings.HasPrefix` on strings. -/
def goHasPre (s pre : String) : Bool :=
  spre pre.data s.data

/-- ASCII letter test (the scheme identifiers handled here are ASCII). -/
def isAsciiLetter (c : Char) : Bool :=
  ('a' ≤ c && c ≤ 'z') || ('A' ≤ c && c ≤ 'Z')

/-- Uppercase an ASCII letter, identity otherwise. -/
def asciiUpper (c : Char) : Char :=
  if 'a' ≤ c && c ≤ 'z' then Char.ofNat (c.toNat - 32) else c

/-- Title-casing of a character list: a letter that begins a word (its
predecessor is not a letter) is uppercased. The boolean argument records
whether the previous character was a letter. -/
def titleAux : Bool → List Char → List Char
  | _, [] => []
  | prevLetter, c :: cs =>
    (if prevLetter then c else asciiUpper c) :: titleAux (isAsciiLetter c) cs

/-- Model of Go `strings.Title` restricted to ASCII input (the middleware
applies it only to scheme identifiers such as "basic" and "bearer"). -/
def goTitle (s : String) : String :=
  ⟨titleAux false s.data⟩

/-! ## Model of the compiled regular expression `/ocs/v[12].php/cloud/` -/

/-- Does the regular expression `/ocs/v[12].php/cloud/` match at the head of
the character list?  `[12]` admits the digits 1 and 2 and `.` admits any
character except a newline. -/
def ocsPatternAt : List Char → Bool
  | '/' :: 'o' :: 'c' :: 's' :: '/' :: 'v' :: c1 :: c2 :: 'p' :: 'h' :: 'p' ::
      '/' :: 'c' :: 'l' :: 'o' :: 'u' :: 'd' :: '/' :: _ =>
    (c1 == '1' || c1 == '2') && c2 != '\n'
  | _ => false

/-- Unanchored search for the pattern, as `regexp.MatchString` performs. -/
def ocsPatternSearch : List Char → Bool
  | [] => false
  | c :: rest => ocsPatternAt (c :: rest) || ocsPatternSearch rest

/-- Model of `regexp.MustCompile("/ocs/v[12].php/cloud/").MatchString`. -/
def ocsCloudMatch (s : String) : Bool :=
  ocsPatternSearch s.data

/-! ## Data model -/

/-- The parts of an `*http.Request` the middleware consults.

The field `isWebdavRequest` is Modelled from the spec: the `webdav`
package (absent from src/) decides whether a request is recognized as a
WebDAV operation from its method or a distinguishing header; we carry the
outcome of `webdav.IsWebdavRequest` as a request attribute. -/
structure Request where
  path : String
  requestURI : String
  userAgent : String
  host : String
  isWebdavRequest : Bool
deriving DecidableEq

/-- The configuration options the middleware reads: the OIDC issuer, the
Basic-auth enable flag and the reva user-agent lock map
(`CredentialsByUserAgent`).  The Go map is carried as an association list;
its order stands for one concrete iteration order of the map. -/
structure Options where
  OIDCIss : String
  EnableBasicAuth : Bool
  CredentialsByUserAgent : List (String × String)
deriving DecidableEq

/-- The response-writer state the middleware mutates before writing the
status: the staged `Www-Authenticate` header values, in insertion order. -/
structure ResponseWriter where
  wwwAuthenticate : List String
deriving DecidableEq

/-- `w.Header().Add(WwwAuthenticate, v)`. -/
def headerAdd (w : ResponseWriter) (v : String) : ResponseWriter :=
  { w with wwwAuthenticate := w.wwwAuthenticate ++ [v] }

/-- `removeSuperfluousAuthenticate`: `w.Header().Del(WwwAuthenticate)`. -/
def removeSuperfluousAuthenticate (w : ResponseWriter) : ResponseWriter :=
  { w with wwwAuthenticate := [] }

/-- The header value `fmt.Sprintf("%v realm=\"%s\", charset=\"UTF-8\"",
strings.Title(scheme), host)` built by the middleware. -/
def challengeValue (scheme host : String) : String :=
  goTitle scheme ++ " realm=\"" ++ host ++ "\", charset=\"UTF-8\""

/-- Modelled from the spec: `webdav.Exception` (package absent from src/),
the structured WebDAV fault payload with a fault code and a human-readable
message. -/
structure WebdavException where
  Code : String
  Message : String
deriving DecidableEq

/-- Modelled from the spec: the fault code for "permission denied" used by
the absent `webdav` package (`webdav.SabredavPermissionDenied`). -/
def SabredavPermissionDenied : String := "permission-denied"

/-- The body written alongside the 401: either the platform's generic
unauthorized status text (nothing is written explicitly by the handler), or
the WebDAV XML fault serialization of an exception.  Serialization itself
is Modelled from the spec (the `webdav.Marshal` code is absent from src/):
we keep the structured fault rather than its XML text. -/
inductive FailureBody where
  | statusText
  | webdavXmlFault (e : WebdavException)
deriving DecidableEq

/-- `http.StatusUnauthorized`. -/
def StatusUnauthorized : Nat := 401

/-- A fully written failure response: status, staged `Www-Authenticate`
headers in order, and the body. -/
structure WrittenResponse where
  status : Nat
  wwwAuthenticate : List String
  body : FailureBody
deriving DecidableEq

/-- The observable outcome of the middleware on one request: either the
request (possibly augmented by an authenticator) was handed to the
downstream handler `next`, or a failure response was written. -/
inductive Result where
  | passedDownstream (req : Request)
  | written (resp : WrittenResponse)
deriving DecidableEq

/-- The outcome with the Www-Authenticate headers erased: everything about
a result except the staged challenge headers. -/
def eraseChallenges : Result → Result
  | .passedDownstream req => .passedDownstream req
  | .written resp => .written { resp with wwwAuthenticate := [] }

/-! ## The middleware functions, one per Go function -/

/-- `isOIDCTokenAuth`: the OIDC token endpoint uses Basic auth for clients;
the middleware recognizes it by exact path. -/
def isOIDCTokenAuth (r : Request) : Bool :=
  r.path == "/konnect/v1/token"

/-- `_publicPaths`, the hard-coded public path list. -/
def publicPaths : List String :=
  ["/dav/public-files/",
   "/remote.php/dav/public-files/",
   "/remote.php/ocs/apps/files_sharing/api/v1/tokeninfo/unprotected",
   "/ocs/v1.php/cloud/capabilities",
   "/data"]

/-- `isPublicPath`: does some configured public path occur at the start of
the request path? -/
def isPublicPath (p : String) : Bool :=
  publicPaths.any (fun pp => goHasPre p pp)

/-- The disjunction guarding the IdP bypass branch of `Authentication`:
requests whose authentication is handled by the IdP are forwarded
unconditionally. -/
def isBypassRequest (r : Request) : Bool :=
  isOIDCTokenAuth r ||
  r.path == "/" ||
  goHasPre r.path "/.well-known" ||
  r.path == "/login" ||
  goHasPre r.path "/js" ||
  goHasPre r.path "/themes" ||
  goHasPre r.path "/signin" ||
  goHasPre r.path "/konnect" ||
  r.path == "/config.json" ||
  r.path == "/oidc-callback.html" ||
  r.path == "/oidc-callback" ||
  r.path == "/settings.js"

/-- The classification of a request path implied by the middleware's
control flow: the IdP bypass branch, then the public-path test, else
normal. -/
inductive PathClass where
  | bypass
  | public
  | normal
deriving DecidableEq

/-- Classification of a request, following the order of the tests in
`Authentication`. -/
def classify (r : Request) : PathClass :=
  if isBypassRequest r then .bypass
  else if isPublicPath r.path then .public
  else .normal

/-- `configureSupportedChallenges` appends the known challenges to the
current value of the global `SupportedAuthStrategies` list. -/
def configureSupportedChallenges (options : Options) (current : List String) : List String :=
  let s1 := if options.OIDCIss != "" then current ++ ["bearer"] else current
  if options.EnableBasicAuth then s1 ++ ["basic"] else s1

/-- `userAgentLocker`, the dependency-injection record threaded through the
lock-in helpers. -/
structure userAgentLocker where
  w : ResponseWriter
  r : Request
  locks : List (String × String)
  fallback : String

/-- The `for k, v := range l.locks` loop body of `evalRequestURI`: on the
first key `k` with `strings.Contains(k, userAgent)` the staged headers are
cleared and the challenge for the mapped scheme `v` is added; if no key
matches, the challenge for the fallback scheme is added. -/
def evalLocks (w : ResponseWriter) (host ua : String) :
    List (String × String) → String → ResponseWriter
  | [], fallback => headerAdd w (challengeValue fallback host)
  | (k, v) :: rest, fallback =>
    if goContains k ua then
      headerAdd (removeSuperfluousAuthenticate w) (challengeValue v host)
    else
      evalLocks w host ua rest fallback

/-- `evalRequestURI`: if the pattern does not match the request URI nothing
happens; otherwise the lock map is scanned as in `evalLocks`. -/
def evalRequestURI (l : userAgentLocker) (pat : String → Bool) : ResponseWriter :=
  if !pat l.r.requestURI then l.w
  else evalLocks l.w l.r.host l.r.userAgent l.locks l.fallback

/-- `ProxyWwwAuthenticate`: the endpoints that do not rely on reva
underlying authentication, as compiled match functions. -/
def ProxyWwwAuthenticate : List (String → Bool) :=
  [ocsCloudMatch]

/-- `userAgentAuthenticateLockIn`: run `evalRequestURI` for every compiled
pattern in `ProxyWwwAuthenticate`. -/
def userAgentAuthenticateLockIn (w : ResponseWriter) (r : Request)
    (locks : List (String × String)) (fallback : String) : ResponseWriter :=
  ProxyWwwAuthenticate.foldl
    (fun w pat => evalRequestURI { w := w, r := r, locks := locks, fallback := fallback } pat) w

/-- The `for _, a := range auths` loop of `Authentication`: invoke the
authenticators in order, stop at the first success.  Returns the augmented
request of the first successful authenticator (if any) together with the
number of authenticators actually invoked. -/
def runAuthenticators : List (Request → Option Request) → Request → Option Request × Nat
  | [], _ => (none, 0)
  | a :: rest, r =>
    match a r with
    | some req => (some req, 1)
    | none =>
      let p := runAuthenticators rest r
      (p.1, p.2 + 1)

/-- The request handler returned by `Authentication`, parametrized by the
`SupportedAuthStrategies` list the closure reads.  The second component of
the result is the number of authenticators invoked for this request. -/
def handleRequest (auths : List (Request → Option Request)) (options : Options)
    (supported : List String) (r : Request) : Result × Nat :=
  if isBypassRequest r then
    (.passedDownstream r, 0)
  else
    match runAuthenticators auths r with
    | (some req, n) => (.passedDownstream req, n)
    | (none, n) =>
      let w0 : ResponseWriter := { wwwAuthenticate := [] }
      let w1 :=
        if !isPublicPath r.path then
          supported.foldl
            (fun w s => userAgentAuthenticateLockIn w r options.CredentialsByUserAgent s) w0
        else w0
      (.written
        { status := StatusUnauthorized,
          wwwAuthenticate := w1.wwwAuthenticate,
          body :=
            if r.isWebdavRequest then
              .webdavXmlFault { Code := SabredavPermissionDenied, Message := "Authentication error" }
            else .statusText }, n)

/-- `Authentication`: build `SupportedAuthStrategies` once (from the empty
initial value of the global) and serve every request against it. -/
def Authentication (auths : List (Request → Option Request)) (options : Options)
    (r : Request) : Result × Nat :=
  handleRequest auths options (configureSupportedChallenges options []) r

/-! ## Specification-side helper: first matching lock entry -/

/-- The first lock entry whose key contains the user agent as a substring,
if any.  This is the pure first-match extraction of the `evalLocks` loop. -/
def lockLookup : List (String × String) → String → Option String
  | [], _ => none
  | (k, v) :: rest, ua => if goContains k ua then some v else lockLookup rest ua

/-! ## Lemmas about the string models -/

theorem spre_iff (p s : List Char) : spre p s = true ↔ p <+: s := by
  induction p generalizing s with
  | nil => simp [spre]
  | cons a ps ih =>
    cases s with
    | nil => simp [spre]
    | cons b cs => simp [spre, List.cons_prefix_cons, ih]

theorem scontains_iff (s sub : List Char) : scontains s sub = true ↔ sub <:+: s := by
  induction s with
  | nil => simp [scontains, spre_iff]
  | cons c rest ih => simp [scontains, spre_iff, ih, List.infix_cons_iff]

theorem goContains_iff (s sub : String) : goContains s sub = true ↔ sub.data <:+: s.data :=
  scontains_iff s.data sub.data

theorem scontains_nil (s : List Char) : scontains s [] = true := by
  cases s <;> simp [scontains, spre]

/-! ## Lemmas about the authenticator loop -/

theorem runAuthenticators_all_fail (auths : List (Request → Option Request)) (r : Request)
    (h : ∀ a ∈ auths, a r = none) :
    runAuthenticators auths r = (none, auths.length) := by
  induction auths with
  | nil => rfl
  | cons a rest ih =>
    have ha : a r = none := h a (List.mem_cons_self a rest)
    have hrest : ∀ b ∈ rest, b r = none := fun b hb => h b (List.mem_cons_of_mem a hb)
    simp [runAuthenticators, ha, ih hrest]

theorem runAuthenticators_first_success (auths : List (Request → Option Request)) (r : Request)
    (j : Nat) (a : Request → Option Request) (req : Request)
    (hj : auths[j]? = some a) (ha : a r = some req)
    (hfirst : ∀ i b, i < j → auths[i]? = some b → b r = none) :
    runAuthenticators auths r = (some req, j + 1) := by
  induction auths generalizing j with
  | nil => simp at hj
  | cons a0 rest ih =>
    cases j with
    | zero =>
      simp only [List.getElem?_cons_zero, Option.some.injEq] at hj
      subst hj
      simp [runAuthenticators, ha]
    | succ j' =>
      have h0 : a0 r = none := hfirst 0 a0 (Nat.succ_pos j') (by simp)
      have hj' : rest[j']? = some a := by simpa using hj
      have hfirst' : ∀ i b, i < j' → rest[i]? = some b → b r = none := by
        intro i b hi hib
        exact hfirst (i + 1) b (Nat.succ_lt_succ hi) (by simpa using hib)
      simp [runAuthenticators, h0, ih j' hj' hfirst']

/-! ## Lemmas about the lock-in helpers -/

theorem evalLocks_eq_lockLookup (w : ResponseWriter) (host ua : String)
    (locks : List (String × String)) (fallback : String) :
    evalLocks w host ua locks fallback =
      match lockLookup locks ua with
      | some v => headerAdd (removeSuperfluousAuthenticate w) (challengeValue v host)
      | none => headerAdd w (challengeValue fallback host) := by
  induction locks with
  | nil => rfl
  | cons kv rest ih =>
    obtain ⟨k, v⟩ := kv
    by_cases h : goContains k ua = true
    · simp [evalLocks, lockLookup, h]
    · simp only [Bool.not_eq_true] at h
      simp [evalLocks, lockLookup, h, ih]

theorem userAgentAuthenticateLockIn_eq (w : ResponseWriter) (r : Request)
    (locks : List (String × String)) (fallback : String) :
    userAgentAuthenticateLockIn w r locks fallback =
      if ocsCloudMatch r.requestURI then
        evalLocks w r.host r.userAgent locks fallback
      else w := by
  cases h : ocsCloudMatch r.requestURI <;>
    simp [userAgentAuthenticateLockIn, ProxyWwwAuthenticate, evalRequestURI, h]

theorem foldLockIn_no_match (r : Request) (locks : List (String × String))
    (supported : List String) (w : ResponseWriter)
    (h : ocsCloudMatch r.requestURI = false) :
    supported.foldl (fun w s => userAgentAuthenticateLockIn w r locks s) w = w := by
  induction supported generalizing w with
  | nil => rfl
  | cons s rest ih => simp [List.foldl_cons, userAgentAuthenticateLockIn_eq, h, ih]

theorem foldLockIn_locked_aux (r : Request) (locks : List (String × String))
    (rest : List String) (v : String)
    (hm : ocsCloudMatch r.requestURI = true)
    (hl : lockLookup locks r.userAgent = some v) :
    rest.foldl (fun w s => userAgentAuthenticateLockIn w r locks s)
        { wwwAuthenticate := [challengeValue v r.host] } =
      { wwwAuthenticate := [challengeValue v r.host] } := by
  induction rest with
  | nil => rfl
  | cons s rest' ih =>
    have hstep :
        userAgentAuthenticateLockIn { wwwAuthenticate := [challengeValue v r.host] } r locks s =
          { wwwAuthenticate := [challengeValue v r.host] } := by
      simp [userAgentAuthenticateLockIn_eq, hm, evalLocks_eq_lockLookup, hl,
        headerAdd, removeSuperfluousAuthenticate]
    rw [List.foldl_cons, hstep, ih]

theorem foldLockIn_locked (r : Request) (locks : List (String × String))
    (supported : List String) (w : ResponseWriter) (v : String)
    (hm : ocsCloudMatch r.requestURI = true)
    (hl : lockLookup locks r.userAgent = some v)
    (hs : supported ≠ []) :
    supported.foldl (fun w s => userAgentAuthenticateLockIn w r locks s) w =
      { wwwAuthenticate := [challengeValue v r.host] } := by
  cases supported with
  | nil => exact absurd rfl hs
  | cons s rest =>
    have hstep : userAgentAuthenticateLockIn w r locks s =
        { wwwAuthenticate := [challengeValue v r.host] } := by
      simp [userAgentAuthenticateLockIn_eq, hm, evalLocks_eq_lockLookup, hl,
        headerAdd, removeSuperfluousAuthenticate]
    rw [List.foldl_cons, hstep, foldLockIn_locked_aux r locks rest v hm hl]

theorem foldLockIn_fallback (r : Request) (locks : List (String × String))
    (supported : List String) (w : ResponseWriter)
    (hm : ocsCloudMatch r.requestURI = true)
    (hl : lockLookup locks r.userAgent = none) :
    supported.foldl (fun w s => userAgentAuthenticateLockIn w r locks s) w =
      { wwwAuthenticate :=
          w.wwwAuthenticate ++ supported.map (fun s => challengeValue s r.host) } := by
  induction supported generalizing w with
  | nil => simp
  | cons s rest ih =>
    have hstep : userAgentAuthenticateLockIn w r locks s =
        headerAdd w (challengeValue s r.host) := by
      simp [userAgentAuthenticateLockIn_eq, hm, evalLocks_eq_lockLookup, hl]
    rw [List.foldl_cons, hstep, ih]
    simp [headerAdd]

/-! ## Lemmas about classification -/

theorem classify_eq_normal_iff (r : Request) :
    classify r = .normal ↔ isBypassRequest r = false ∧ isPublicPath r.path = false := by
  unfold classify
  cases h1 : isBypassRequest r <;> cases h2 : isPublicPath r.path <;> simp [h1, h2]

theorem classify_eq_public_iff (r : Request) :
    classify r = .public ↔ isBypassRequest r = false ∧ isPublicPath r.path = true := by
  unfold classify
  cases h1 : isBypassRequest r <;> cases h2 : isPublicPath r.path <;> simp [h1, h2]

theorem classify_eq_bypass_iff (r : Request) :
    classify r = .bypass ↔ isBypassRequest r = true := by
  unfold classify
  cases h1 : isBypassRequest r <;> cases h2 : isPublicPath r.path <;> simp [h1, h2]

/-! ## Lemmas about `lockLookup` -/

theorem lockLookup_none_of_no_match (locks : List (String × String)) (ua : String)
    (h : ∀ kv ∈ locks, goContains kv.1 ua = false) :
    lockLookup locks ua = none := by
  induction locks with
  | nil => rfl
  | cons kv rest ih =>
    obtain ⟨k, v⟩ := kv
    have hk : goContains k ua = false := h (k, v) (List.mem_cons_self _ _)
    simp [lockLookup, hk, ih (fun kv hkv => h kv (List.mem_cons_of_mem _ hkv))]

theorem lockLookup_first_match (locks : List (String × String)) (ua : String)
    (j : Nat) (k v : String)
    (hj : locks[j]? = some (k, v)) (hk : goContains k ua = true)
    (hfirst : ∀ i k' v', i < j → locks[i]? = some (k', v') → goContains k' ua = false) :
    lockLookup locks ua = some v := by
  induction locks generalizing j with
  | nil => simp at hj
  | cons kv rest ih =>
    obtain ⟨k0, v0⟩ := kv
    cases j with
    | zero =>
      simp only [List.getElem?_cons_zero, Option.some.injEq, Prod.mk.injEq] at hj
      obtain ⟨hk0, hv0⟩ := hj
      subst hk0; subst hv0
      simp [lockLookup, hk]
    | succ j' =>
      have h0 : goContains k0 ua = false := hfirst 0 k0 v0 (Nat.succ_pos j') (by simp)
      have hj' : rest[j']? = some (k, v) := by simpa using hj
      have hfirst' : ∀ i k' v', i < j' → rest[i]? = some (k', v') → goContains k' ua = false := by
        intro i k' v' hi hik
        exact hfirst (i + 1) k' v' (Nat.succ_lt_succ hi) (by simpa using hik)
      simp [lockLookup, h0, ih j' hj' hfirst']

/-- The complete characterization of the challenge headers staged by the
`for _, s := range SupportedAuthStrategies` loop, starting from an empty
header set. -/
theorem foldLockIn_characterization (r : Request) (locks : List (String × String))
    (supported : List String) :
    supported.foldl (fun w s => userAgentAuthenticateLockIn w r locks s)
        { wwwAuthenticate := [] } =
      { wwwAuthenticate :=
          if ocsCloudMatch r.requestURI then
            match lockLookup locks r.userAgent, supported with
            | some v, _ :: _ => [challengeValue v r.host]
            | some _, [] => []
            | none, sup => sup.map (fun s => challengeValue s r.host)
          else [] } := by
  cases hm : ocsCloudMatch r.requestURI
  · simp [foldLockIn_no_match r locks supported _ hm, hm]
  · cases hl : lockLookup locks r.userAgent with
    | some v =>
      cases supported with
      | nil => simp [hm, hl]
      | cons s rest =>
        simp [foldLockIn_locked r locks (s :: rest) _ v hm hl (List.cons_ne_nil s rest), hm, hl]
    | none => simp [foldLockIn_fallback r locks supported _ hm hl, hm, hl]

/-- The full failure response of the middleware on a normal-classified
request: status 401 and the challenge headers of
`foldLockIn_characterization`. -/
theorem authentication_normal_case (auths : List (Request → Option Request))
    (options : Options) (r : Request)
    (hb : isBypassRequest r = false) (hp : isPublicPath r.path = false)
    (hfail : ∀ a ∈ auths, a r = none) :
    Authentication auths options r =
      (.written
        { status := StatusUnauthorized,
          wwwAuthenticate :=
            if ocsCloudMatch r.requestURI then
              match lockLookup options.CredentialsByUserAgent r.userAgent,
                  configureSupportedChallenges options [] with
              | some v, _ :: _ => [challengeValue v r.host]
              | some _, [] => []
              | none, supported => supported.map (fun s => challengeValue s r.host)
            else [],
          body :=
            if r.isWebdavRequest then
              .webdavXmlFault { Code := SabredavPermissionDenied, Message := "Authentication error" }
            else .statusText }, auths.length) := by
  simp [Authentication, handleRequest, hb, hp, runAuthenticators_all_fail auths r hfail,
    foldLockIn_characterization]

/-! ## Claims -/

/-- C4: For every request whose path is classified bypass (IdP-owned paths
such as /login, /.well-known prefixes, sign-in assets, OIDC callback,
/settings.js), the middleware's response equals exactly what the downstream
handler alone would produce on the unmodified request (the request is
passed downstream as-is), and no Authenticator is ever invoked (the
invocation count is zero). -/
theorem c4_bypass_passthrough (auths : List (Request → Option Request)) (options : Options)
    (r : Request) (h : classify r = .bypass) :
    Authentication auths options r = (.passedDownstream r, 0) := by
  have hb : isBypassRequest r = true := (classify_eq_bypass_iff r).mp h
  simp [Authentication, handleRequest, hb]

/-- Witness for C4: the request to /.well-known/openid-configuration is
forwarded unmodified with zero authenticator invocations, even though the
configured authenticator would succeed and augment the request. -/
theorem c4_bypass_passthrough_witness :
    Authentication [fun s => some { s with userAgent := "aug" }]
      { OIDCIss := "https://idp", EnableBasicAuth := true, CredentialsByUserAgent := [] }
      { path := "/.well-known/openid-configuration",
        requestURI := "/.well-known/openid-configuration",
        userAgent := "u", host := "h", isWebdavRequest := false }
    = (.passedDownstream
        { path := "/.well-known/openid-configuration",
          requestURI := "/.well-known/openid-configuration",
          userAgent := "u", host := "h", isWebdavRequest := false }, 0) :=
  c4_bypass_passthrough _ _ _ (by decide)

/-- C5 counterexample: a request to the exact token-endpoint path
/konnect/v1/token with an authenticator that accepts it (valid Basic client
credentials) is NOT authenticated by the middleware: it is recognized by
`isOIDCTokenAuth` and forwarded unmodified with zero authenticator
invocations, so the claim that the Basic Authenticator is invoked and
succeeds (and that the downstream handler receives its augmented request)
is false. -/
theorem c5_counterexample :
    isOIDCTokenAuth
      { path := "/konnect/v1/token", requestURI := "/konnect/v1/token",
        userAgent := "u", host := "h", isWebdavRequest := false } = true ∧
    (fun s => some { s with userAgent := "basic-ok" } : Request → Option Request)
      { path := "/konnect/v1/token", requestURI := "/konnect/v1/token",
        userAgent := "u", host := "h", isWebdavRequest := false } ≠ none ∧
    Authentication [fun s => some { s with userAgent := "basic-ok" }]
      { OIDCIss := "https://idp", EnableBasicAuth := true, CredentialsByUserAgent := [] }
      { path := "/konnect/v1/token", requestURI := "/konnect/v1/token",
        userAgent := "u", host := "h", isWebdavRequest := false }
    = (.passedDownstream
        { path := "/konnect/v1/token", requestURI := "/konnect/v1/token",
          userAgent := "u", host := "h", isWebdavRequest := false }, 0) ∧
    ({ path := "/konnect/v1/token", requestURI := "/konnect/v1/token",
       userAgent := "basic-ok", host := "h", isWebdavRequest := false } : Request) ≠
      { path := "/konnect/v1/token", requestURI := "/konnect/v1/token",
        userAgent := "u", host := "h", isWebdavRequest := false } := by
  decide

/-- C5 (amended): every request to the exact path of the OAuth2 token
endpoint (/konnect/v1/token) is recognized by `isOIDCTokenAuth` and taken
through the IdP bypass branch: it is forwarded downstream unconditionally
and unmodified, with no middleware Authenticator invoked; Basic client
authentication for the token endpoint is performed by the IdP downstream,
not by this middleware. -/
theorem c5_token_endpoint_bypassed (auths : List (Request → Option Request))
    (options : Options) (r : Request) (h : isOIDCTokenAuth r = true) :
    classify r = .bypass ∧ Authentication auths options r = (.passedDownstream r, 0) := by
  have hb : isBypassRequest r = true := by simp [isBypassRequest, h]
  exact ⟨(classify_eq_bypass_iff r).mpr hb, by simp [Authentication, handleRequest, hb]⟩

/-- Witness for C5 (amended): the concrete token-endpoint request is
classified bypass and forwarded with zero invocations. -/
theorem c5_token_endpoint_bypassed_witness :
    classify
      { path := "/konnect/v1/token", requestURI := "/konnect/v1/token",
        userAgent := "u", host := "h", isWebdavRequest := false } = .bypass ∧
    Authentication [fun s => some { s with userAgent := "basic-ok" }]
      { OIDCIss := "https://idp", EnableBasicAuth := true, CredentialsByUserAgent := [] }
      { path := "/konnect/v1/token", requestURI := "/konnect/v1/token",
        userAgent := "u", host := "h", isWebdavRequest := false }
    = (.passedDownstream
        { path := "/konnect/v1/token", requestURI := "/konnect/v1/token",
          userAgent := "u", host := "h", isWebdavRequest := false }, 0) :=
  c5_token_endpoint_bypassed _ _ _ (by decide)

/-- C6: for every request whose path is classified public and for which
every authenticator fails, the written response has status 401 and carries
no Www-Authenticate header at all. -/
theorem c6_public_unauthorized_no_challenge (auths : List (Request → Option Request))
    (options : Options) (r : Request)
    (h : classify r = .public) (hfail : ∀ a ∈ auths, a r = none) :
    Authentication auths options r =
      (.written
        { status := StatusUnauthorized,
          wwwAuthenticate := [],
          body :=
            if r.isWebdavRequest then
              .webdavXmlFault { Code := SabredavPermissionDenied, Message := "Authentication error" }
            else .statusText }, auths.length) := by
  obtain ⟨hb, hp⟩ := (classify_eq_public_iff r).mp h
  simp [Authentication, handleRequest, hb, hp, runAuthenticators_all_fail auths r hfail]

/-- Witness for C6: the public-share path /dav/public-files/abc with a
failing authenticator yields a 401 with an empty Www-Authenticate set. -/
theorem c6_public_unauthorized_no_challenge_witness :
    Authentication [fun _ => none]
      { OIDCIss := "https://idp", EnableBasicAuth := true, CredentialsByUserAgent := [] }
      { path := "/dav/public-files/abc", requestURI := "/dav/public-files/abc",
        userAgent := "u", host := "h", isWebdavRequest := false }
    = (.written { status := StatusUnauthorized, wwwAuthenticate := [], body := .statusText }, 1) := by
  rw [c6_public_unauthorized_no_challenge [fun _ => none] _ _ (by decide)
    (by intro a ha; rcases List.mem_singleton.mp ha with rfl; rfl)]
  decide

/-- C7: for every unauthenticated non-bypass request the failure response
status is always 401; if the request is recognized as a WebDAV operation
the body is the WebDAV XML fault with code "permission-denied" and message
"Authentication error", and otherwise the body is the platform's generic
unauthorized status text — only the body format differs. -/
theorem c7_failure_translation (auths : List (Request → Option Request))
    (options : Options) (r : Request)
    (h : classify r ≠ .bypass) (hfail : ∀ a ∈ auths, a r = none) :
    ∃ resp : WrittenResponse,
      (Authentication auths options r).1 = .written resp ∧
      resp.status = StatusUnauthorized ∧
      resp.body =
        (if r.isWebdavRequest then
          .webdavXmlFault { Code := SabredavPermissionDenied, Message := "Authentication error" }
        else .statusText) := by
  have hb : isBypassRequest r = false := by
    cases hb' : isBypassRequest r
    · rfl
    · exact absurd ((classify_eq_bypass_iff r).mpr hb') h
  simp only [Authentication, handleRequest, hb, Bool.false_eq_true, if_false,
    runAuthenticators_all_fail auths r hfail]
  exact ⟨_, rfl, rfl, rfl⟩

/-- Witness for C7: a WebDAV-shaped request to /remote.php/webdav/doc.txt
with a failing authenticator receives a 401 whose body is the structured
permission-denied fault. -/
theorem c7_failure_translation_witness :
    ∃ resp : WrittenResponse,
      (Authentication [fun _ => none]
        { OIDCIss := "https://idp", EnableBasicAuth := true, CredentialsByUserAgent := [] }
        { path := "/remote.php/webdav/doc.txt", requestURI := "/remote.php/webdav/doc.txt",
          userAgent := "u", host := "h", isWebdavRequest := true }).1 = .written resp ∧
      resp.status = StatusUnauthorized ∧
      resp.body =
        (if ({ path := "/remote.php/webdav/doc.txt", requestURI := "/remote.php/webdav/doc.txt",
               userAgent := "u", host := "h", isWebdavRequest := true } : Request).isWebdavRequest then
          .webdavXmlFault { Code := SabredavPermissionDenied, Message := "Authentication error" }
        else .statusText) :=
  c7_failure_translation [fun _ => none] _ _ (by decide)
    (by intro a ha; rcases List.mem_singleton.mp ha with rfl; rfl)

/-- C9: the supported challenge list is built once at construction from the
empty initial value of the global: it contains "bearer" iff the OIDC issuer
is non-empty, followed by "basic" iff Basic auth is enabled, in that order;
and every request is handled against that once-built list (the handler is a
pure function of it — handling a request never mutates it or any other part
of the configuration). -/
theorem c9_supported_challenges_construction (options : Options) :
    configureSupportedChallenges options [] =
      (if options.OIDCIss != "" then ["bearer"] else []) ++
        (if options.EnableBasicAuth then ["basic"] else []) ∧
    ∀ (auths : List (Request → Option Request)) (r : Request),
      Authentication auths options r =
        handleRequest auths options (configureSupportedChallenges options []) r := by
  refine ⟨?_, fun auths r => rfl⟩
  cases h1 : (options.OIDCIss != "") <;> cases h2 : options.EnableBasicAuth <;>
    simp [configureSupportedChallenges, h1, h2]

/-- C1 counterexample: a normal-classified request whose URI does not match
the ProxyWwwAuthenticate pattern receives a 401 with an EMPTY
Www-Authenticate set even though a challenge scheme ("bearer") is
configured and no lock rule matches, so the header set does not match the
configured supported schemes as the claim states. -/
theorem c1_counterexample :
    configureSupportedChallenges
      { OIDCIss := "https://idp", EnableBasicAuth := false, CredentialsByUserAgent := [] } []
      = ["bearer"] ∧
    classify
      { path := "/foo/bar", requestURI := "/foo/bar",
        userAgent := "u", host := "h", isWebdavRequest := false } = .normal ∧
    Authentication [fun _ => none]
      { OIDCIss := "https://idp", EnableBasicAuth := false, CredentialsByUserAgent := [] }
      { path := "/foo/bar", requestURI := "/foo/bar",
        userAgent := "u", host := "h", isWebdavRequest := false }
    = (.written { status := StatusUnauthorized, wwwAuthenticate := [], body := .statusText }, 1) ∧
    ([] : List String) ≠ ["bearer"].map (fun s => challengeValue s "h") := by
  decide

/-- C1 (amended): for every normal-classified request for which every
authenticator fails, the written response has status 401; challenge headers
are emitted only when the request URI matches a ProxyWwwAuthenticate
pattern (the OCS endpoints /ocs/v[12].php/cloud/): in that case the
Www-Authenticate set exactly matches the configured supported schemes, one
header per scheme in configured order, unless a lock rule matches, in which
case exactly one header for the locked scheme is present (the override
clears any previously staged challenge headers rather than appending; with
zero configured schemes the loop never runs and no header appears); when no
pattern matches the URI, no Www-Authenticate header is emitted at all. -/
theorem c1_normal_challenge_headers (auths : List (Request → Option Request))
    (options : Options) (r : Request)
    (hn : classify r = .normal) (hfail : ∀ a ∈ auths, a r = none) :
    Authentication auths options r =
      (.written
        { status := StatusUnauthorized,
          wwwAuthenticate :=
            if ocsCloudMatch r.requestURI then
              match lockLookup options.CredentialsByUserAgent r.userAgent,
                  configureSupportedChallenges options [] with
              | some v, _ :: _ => [challengeValue v r.host]
              | some _, [] => []
              | none, supported => supported.map (fun s => challengeValue s r.host)
            else [],
          body :=
            if r.isWebdavRequest then
              .webdavXmlFault { Code := SabredavPermissionDenied, Message := "Authentication error" }
            else .statusText }, auths.length) := by
  obtain ⟨hb, hp⟩ := (classify_eq_normal_iff r).mp hn
  exact authentication_normal_case auths options r hb hp hfail

/-- Witness for C1 (amended): a normal OCS request with bearer and basic
configured, no lock entry matching, receives both challenge headers in
configured order. -/
theorem c1_normal_challenge_headers_witness :
    Authentication [fun _ => none]
      { OIDCIss := "https://idp", EnableBasicAuth := true,
        CredentialsByUserAgent := [("unrelated-key", "basic")] }
      { path := "/ocs/v2.php/cloud/users", requestURI := "/ocs/v2.php/cloud/users",
        userAgent := "mirall", host := "h", isWebdavRequest := false }
    = (.written
        { status := StatusUnauthorized,
          wwwAuthenticate := [challengeValue "bearer" "h", challengeValue "basic" "h"],
          body := .statusText }, 1) := by
  rw [c1_normal_challenge_headers [fun _ => none] _ _ (by decide)
    (by intro a ha; rcases List.mem_singleton.mp ha with rfl; rfl)]
  decide

/-- C2 counterexample: with lock entry ("LegacySyncClient", "basic") and
User-Agent "LegacySyncClient/1.0", the agent does contain the key as a
substring, so the claim predicts the locked challenge for "basic"; but the
code tests `strings.Contains(key, userAgent)` — containment the other way
around — which fails here, so the fallback challenge is emitted instead. -/
theorem c2_counterexample :
    goContains "LegacySyncClient/1.0" "LegacySyncClient" = true ∧
    goContains "LegacySyncClient" "LegacySyncClient/1.0" = false ∧
    evalRequestURI
      { w := { wwwAuthenticate := [] },
        r := { path := "/ocs/v1.php/cloud/users", requestURI := "/ocs/v1.php/cloud/users",
               userAgent := "LegacySyncClient/1.0", host := "h", isWebdavRequest := false },
        locks := [("LegacySyncClient", "basic")],
        fallback := "bearer" } ocsCloudMatch
    = { wwwAuthenticate := [challengeValue "bearer" "h"] } ∧
    challengeValue "bearer" "h" ≠ challengeValue "basic" "h" := by
  decide

/-- C2 (amended): for every request URI matched by a lock-scope pattern,
the lock resolution scans the lock entries in order and, on the first entry
whose KEY contains the request's User-Agent value as a substring (substring
containment of the userAgent within the key — the reverse of the claimed
direction), clears the staged headers and emits the challenge for the
mapped scheme; if no entry's key contains the userAgent, the fallback
scheme's challenge is appended. -/
theorem c2_lock_resolution (l : userAgentLocker) (pat : String → Bool)
    (hm : pat l.r.requestURI = true) :
    ((∀ kv ∈ l.locks, ¬(l.r.userAgent.data <:+: kv.1.data)) →
      evalRequestURI l pat = headerAdd l.w (challengeValue l.fallback l.r.host)) ∧
    (∀ (j : Nat) (k v : String), l.locks[j]? = some (k, v) → l.r.userAgent.data <:+: k.data →
      (∀ (i : Nat) (k' v' : String), i < j → l.locks[i]? = some (k', v') →
        ¬(l.r.userAgent.data <:+: k'.data)) →
      evalRequestURI l pat =
        headerAdd (removeSuperfluousAuthenticate l.w) (challengeValue v l.r.host)) := by
  have heval : evalRequestURI l pat = evalLocks l.w l.r.host l.r.userAgent l.locks l.fallback := by
    simp [evalRequestURI, hm]
  constructor
  · intro hno
    have hnone : lockLookup l.locks l.r.userAgent = none := by
      refine lockLookup_none_of_no_match _ _ (fun kv hkv => ?_)
      cases hgc : goContains kv.1 l.r.userAgent
      · rfl
      · exact absurd ((goContains_iff _ _).mp hgc) (hno kv hkv)
    rw [heval, evalLocks_eq_lockLookup, hnone]
  · intro j k v hj hin hfirst
    have hk : goContains k l.r.userAgent = true := (goContains_iff _ _).mpr hin
    have hfirst' : ∀ i k' v', i < j → l.locks[i]? = some (k', v') →
        goContains k' l.r.userAgent = false := by
      intro i k' v' hi hik
      cases hgc : goContains k' l.r.userAgent
      · rfl
      · exact absurd ((goContains_iff _ _).mp hgc) (hfirst i k' v' hi hik)
    have hsome : lockLookup l.locks l.r.userAgent = some v :=
      lockLookup_first_match _ _ j k v hj hk hfirst'
    rw [heval, evalLocks_eq_lockLookup, hsome]

/-- Witness for C2 (amended): the second lock entry is the first whose key
contains the agent "mirall"; its scheme "basic" replaces the staged
headers. -/
theorem c2_lock_resolution_witness :
    evalRequestURI
      { w := { wwwAuthenticate := ["stale"] },
        r := { path := "/ocs/v1.php/cloud/users", requestURI := "/ocs/v1.php/cloud/users",
               userAgent := "mirall", host := "h", isWebdavRequest := false },
        locks := [("no-match-key", "bearer"), ("legacy mirall client", "basic")],
        fallback := "bearer" } ocsCloudMatch
    = headerAdd
        (removeSuperfluousAuthenticate { wwwAuthenticate := ["stale"] })
        (challengeValue "basic" "h") := by
  refine (c2_lock_resolution
    { w := { wwwAuthenticate := ["stale"] },
      r := { path := "/ocs/v1.php/cloud/users", requestURI := "/ocs/v1.php/cloud/users",
             userAgent := "mirall", host := "h", isWebdavRequest := false },
      locks := [("no-match-key", "bearer"), ("legacy mirall client", "basic")],
      fallback := "bearer" } ocsCloudMatch (by decide)).2
    1 "legacy mirall client" "basic" (by decide) (by decide) ?_
  intro i k' v' hi hik
  have hi0 : i = 0 := Nat.lt_one_iff.mp hi
  subst hi0
  simp only [List.getElem?_cons_zero, Option.some.injEq, Prod.mk.injEq] at hik
  obtain ⟨hk', hv'⟩ := hik
  subst hk'
  decide

/-- C3 counterexample: on a bypass path (/login) the configured
authenticator would succeed and augment the request, yet the middleware
forwards the UNMODIFIED request downstream with zero authenticator
invocations, so "the downstream handler receives the augmented request
returned by the first Authenticator that succeeded" fails as a statement
about every request. -/
theorem c3_counterexample :
    (fun s => some { s with userAgent := "augmented" } : Request → Option Request)
      { path := "/login", requestURI := "/login",
        userAgent := "u", host := "h", isWebdavRequest := false } ≠ none ∧
    Authentication [fun s => some { s with userAgent := "augmented" }]
      { OIDCIss := "https://idp", EnableBasicAuth := false, CredentialsByUserAgent := [] }
      { path := "/login", requestURI := "/login",
        userAgent := "u", host := "h", isWebdavRequest := false }
    = (.passedDownstream
        { path := "/login", requestURI := "/login",
          userAgent := "u", host := "h", isWebdavRequest := false }, 0) ∧
    ({ path := "/login", requestURI := "/login",
       userAgent := "augmented", host := "h", isWebdavRequest := false } : Request) ≠
      { path := "/login", requestURI := "/login",
        userAgent := "u", host := "h", isWebdavRequest := false } := by
  decide

/-- C3 (amended): for every request NOT classified bypass for which some
authenticator succeeds, the final response is produced by the downstream
handler, which receives the augmented request returned by the first
authenticator (in configured order) that succeeded; authenticators are
invoked strictly in configured order and none after the first successful
one is invoked (the invocation count is exactly the successful index plus
one). -/
theorem c3_first_success_wins (auths : List (Request → Option Request))
    (options : Options) (r : Request) (j : Nat) (a : Request → Option Request) (req : Request)
    (hnb : classify r ≠ .bypass)
    (hj : auths[j]? = some a) (ha : a r = some req)
    (hfirst : ∀ i b, i < j → auths[i]? = some b → b r = none) :
    Authentication auths options r = (.passedDownstream req, j + 1) := by
  have hb : isBypassRequest r = false := by
    cases hb' : isBypassRequest r
    · rfl
    · exact absurd ((classify_eq_bypass_iff r).mpr hb') hnb
  simp [Authentication, handleRequest, hb,
    runAuthenticators_first_success auths r j a req hj ha hfirst]

/-- Witness for C3 (amended): with two authenticators of which the second
is the first to succeed, the downstream handler receives its augmented
request and exactly two authenticators were invoked. -/
theorem c3_first_success_wins_witness :
    Authentication [fun _ => none, fun s => some { s with userAgent := "aug" }]
      { OIDCIss := "https://idp", EnableBasicAuth := false, CredentialsByUserAgent := [] }
      { path := "/x", requestURI := "/x", userAgent := "u", host := "h", isWebdavRequest := false }
    = (.passedDownstream
        { path := "/x", requestURI := "/x",
          userAgent := "aug", host := "h", isWebdavRequest := false }, 2) := by
  refine c3_first_success_wins _ _ _ 1 (fun s => some { s with userAgent := "aug" }) _
    (by decide) rfl rfl ?_
  intro i b hi hib
  have hi0 : i = 0 := Nat.lt_one_iff.mp hi
  subst hi0
  simp only [List.getElem?_cons_zero, Option.some.injEq] at hib
  subst hib
  rfl

/-- C8 counterexample: two enumeration orders of the SAME lock map (the two
association lists are permutations of each other) yield different
Www-Authenticate header sets for the same request — with an empty
User-Agent both keys match, and which mapped scheme wins depends on the
enumeration (Go map iteration) order, so the outcome is not a function of
request and configuration alone. -/
theorem c8_counterexample :
    List.Perm [("a", "basic"), ("b", "bearer")] [("b", "bearer"), ("a", "basic")] ∧
    Authentication [fun _ => none]
      { OIDCIss := "https://idp", EnableBasicAuth := false,
        CredentialsByUserAgent := [("a", "basic"), ("b", "bearer")] }
      { path := "/ocs/v2.php/cloud/users", requestURI := "/ocs/v2.php/cloud/users",
        userAgent := "", host := "h", isWebdavRequest := false } ≠
    Authentication [fun _ => none]
      { OIDCIss := "https://idp", EnableBasicAuth := false,
        CredentialsByUserAgent := [("b", "bearer"), ("a", "basic")] }
      { path := "/ocs/v2.php/cloud/users", requestURI := "/ocs/v2.php/cloud/users",
        userAgent := "", host := "h", isWebdavRequest := false } := by
  decide

/-- C8 (amended): for any two evaluations of the same request under the
same configuration (the lock maps being permutations of each other, i.e.
the same Go map enumerated in possibly different orders), the
classification, the forwarding decision, the status, the body and the
invocation count are identical — the header-erased outcomes agree; and
whenever the two enumeration orders resolve the lock scan to the same
result, the full responses including the Www-Authenticate header set are
identical.  Only the choice of winning lock entry can depend on the
enumeration order. -/
theorem c8_determinism (auths : List (Request → Option Request)) (options : Options)
    (l1 l2 : List (String × String)) (r : Request)
    (hperm : List.Perm l1 l2) :
    (eraseChallenges (Authentication auths { options with CredentialsByUserAgent := l1 } r).1 =
        eraseChallenges (Authentication auths { options with CredentialsByUserAgent := l2 } r).1 ∧
      (Authentication auths { options with CredentialsByUserAgent := l1 } r).2 =
        (Authentication auths { options with CredentialsByUserAgent := l2 } r).2) ∧
    (lockLookup l1 r.userAgent = lockLookup l2 r.userAgent →
      Authentication auths { options with CredentialsByUserAgent := l1 } r =
        Authentication auths { options with CredentialsByUserAgent := l2 } r) := by
  constructor
  · unfold Authentication handleRequest
    cases hb : isBypassRequest r
    · rcases hra : runAuthenticators auths r with ⟨res, n⟩
      cases res with
      | none =>
        cases hp : isPublicPath r.path <;> simp [hra, hp, eraseChallenges]
      | some req => simp [hra, eraseChallenges]
    · simp [eraseChallenges]
  · intro h
    have hsc : configureSupportedChallenges { options with CredentialsByUserAgent := l1 } [] =
        configureSupportedChallenges { options with CredentialsByUserAgent := l2 } [] := rfl
    unfold Authentication handleRequest
    cases hb : isBypassRequest r
    · rcases hra : runAuthenticators auths r with ⟨res, n⟩
      cases res with
      | none =>
        cases hp : isPublicPath r.path <;> simp [hra, hp, foldLockIn_characterization, h, hsc]
      | some req => simp [hra]
    · simp

/-- Witness for C8 (amended): with a User-Agent matched by neither key both
enumeration orders of the two-entry lock map produce identical responses. -/
theorem c8_determinism_witness :
    eraseChallenges (Authentication [fun _ => none]
        { OIDCIss := "https://idp", EnableBasicAuth := false,
          CredentialsByUserAgent := [("a", "basic"), ("b", "bearer")] }
        { path := "/ocs/v2.php/cloud/users", requestURI := "/ocs/v2.php/cloud/users",
          userAgent := "zzz", host := "h", isWebdavRequest := false }).1 =
      eraseChallenges (Authentication [fun _ => none]
        { OIDCIss := "https://idp", EnableBasicAuth := false,
          CredentialsByUserAgent := [("b", "bearer"), ("a", "basic")] }
        { path := "/ocs/v2.php/cloud/users", requestURI := "/ocs/v2.php/cloud/users",
          userAgent := "zzz", host := "h", isWebdavRequest := false }).1 ∧
    Authentication [fun _ => none]
      { OIDCIss := "https://idp", EnableBasicAuth := false,
        CredentialsByUserAgent := [("a", "basic"), ("b", "bearer")] }
      { path := "/ocs/v2.php/cloud/users", requestURI := "/ocs/v2.php/cloud/users",
        userAgent := "zzz", host := "h", isWebdavRequest := false } =
    Authentication [fun _ => none]
      { OIDCIss := "https://idp", EnableBasicAuth := false,
        CredentialsByUserAgent := [("b", "bearer"), ("a", "basic")] }
      { path := "/ocs/v2.php/cloud/users", requestURI := "/ocs/v2.php/cloud/users",
        userAgent := "zzz", host := "h", isWebdavRequest := false } := by
  have h := c8_determinism [fun _ => none]
    { OIDCIss := "https://idp", EnableBasicAuth := false, CredentialsByUserAgent := [] }
    [("a", "basic"), ("b", "bearer")] [("b", "bearer"), ("a", "basic")]
    { path := "/ocs/v2.php/cloud/users", requestURI := "/ocs/v2.php/cloud/users",
      userAgent := "zzz", host := "h", isWebdavRequest := false }
    (by decide)
  exact ⟨h.1.1, h.2 (by decide)⟩

/-- C10 counterexample: an unauthenticated normal request whose URI matches
the lock-scope pattern, with a non-empty lock map and an empty User-Agent,
receives NO locked challenge header at all when no challenge scheme is
configured (empty supported list): the claim's "always carries exactly one
locked challenge header" fails. -/
theorem c10_counterexample :
    configureSupportedChallenges
      { OIDCIss := "", EnableBasicAuth := false,
        CredentialsByUserAgent := [("k", "basic")] } [] = [] ∧
    classify
      { path := "/ocs/v2.php/cloud/users", requestURI := "/ocs/v2.php/cloud/users",
        userAgent := "", host := "h", isWebdavRequest := false } = .normal ∧
    ocsCloudMatch "/ocs/v2.php/cloud/users" = true ∧
    goContains "k" "" = true ∧
    Authentication [fun _ => none]
      { OIDCIss := "", EnableBasicAuth := false, CredentialsByUserAgent := [("k", "basic")] }
      { path := "/ocs/v2.php/cloud/users", requestURI := "/ocs/v2.php/cloud/users",
        userAgent := "", host := "h", isWebdavRequest := false }
    = (.written { status := StatusUnauthorized, wwwAuthenticate := [], body := .statusText }, 1) := by
  decide

/-- C10 (amended): for every unauthenticated normal request whose URI
matches the lock-scope pattern, when the lock mapping is non-empty, the
User-Agent is empty and AT LEAST ONE supported challenge scheme is
configured, the substring test succeeds against every lock key (every key
contains the empty string), the lock scan resolves to the first enumerated
entry (so which key wins depends on the map enumeration order), the
fallback branch is never reached, and the response carries exactly one
locked challenge header for that entry's mapped scheme. -/
theorem c10_empty_user_agent_locks (auths : List (Request → Option Request))
    (options : Options) (r : Request) (k v : String) (rest : List (String × String))
    (hn : classify r = .normal) (hfail : ∀ a ∈ auths, a r = none)
    (hm : ocsCloudMatch r.requestURI = true)
    (hua : r.userAgent = "")
    (hlocks : options.CredentialsByUserAgent = (k, v) :: rest)
    (hsup : configureSupportedChallenges options [] ≠ []) :
    (∀ kv ∈ options.CredentialsByUserAgent, goContains kv.1 r.userAgent = true) ∧
    lockLookup options.CredentialsByUserAgent r.userAgent = some v ∧
    v ∈ options.CredentialsByUserAgent.map Prod.snd ∧
    Authentication auths options r =
      (.written
        { status := StatusUnauthorized,
          wwwAuthenticate := [challengeValue v r.host],
          body :=
            if r.isWebdavRequest then
              .webdavXmlFault { Code := SabredavPermissionDenied, Message := "Authentication error" }
            else .statusText }, auths.length) := by
  obtain ⟨hb, hp⟩ := (classify_eq_normal_iff r).mp hn
  have hall : ∀ kv ∈ options.CredentialsByUserAgent, goContains kv.1 r.userAgent = true := by
    intro kv _
    rw [hua]
    exact scontains_nil kv.1.data
  have hlook : lockLookup options.CredentialsByUserAgent r.userAgent = some v := by
    rw [hlocks]
    have := hall (k, v) (by rw [hlocks]; exact List.mem_cons_self _ _)
    simp [lockLookup, this]
  have hmem : v ∈ options.CredentialsByUserAgent.map Prod.snd := by
    rw [hlocks]
    exact List.mem_map_of_mem Prod.snd (List.mem_cons_self _ _)
  refine ⟨hall, hlook, hmem, ?_⟩
  rw [authentication_normal_case auths options r hb hp hfail]
  rcases hse : configureSupportedChallenges options [] with _ | ⟨s, srest⟩
  · exact absurd hse hsup
  · simp [hm, hlook, hse]

/-- Witness for C10 (amended): with bearer configured, an empty User-Agent
and the single lock entry ("k", "basic"), the response carries exactly one
locked Basic challenge. -/
theorem c10_empty_user_agent_locks_witness :
    lockLookup [("k", "basic")] "" = some "basic" ∧
    "basic" ∈ ([("k", "basic")] : List (String × String)).map Prod.snd ∧
    Authentication [fun _ => none]
      { OIDCIss := "https://idp", EnableBasicAuth := false,
        CredentialsByUserAgent := [("k", "basic")] }
      { path := "/ocs/v2.php/cloud/users", requestURI := "/ocs/v2.php/cloud/users",
        userAgent := "", host := "h", isWebdavRequest := false }
    = (.written
        { status := StatusUnauthorized,
          wwwAuthenticate := [challengeValue "basic" "h"],
          body := .statusText }, 1) := by
  have h := c10_empty_user_agent_locks [fun _ => none]
    { OIDCIss := "https://idp", EnableBasicAuth := false, CredentialsByUserAgent := [("k", "basic")] }
    { path := "/ocs/v2.php/cloud/users", requestURI := "/ocs/v2.php/cloud/users",
      userAgent := "", host := "h", isWebdavRequest := false }
    "k" "basic" [] (by decide)
    (by intro a ha; rcases List.mem_singleton.mp ha with rfl; rfl)
    (by decide) rfl rfl (by decide)
  exact ⟨h.2.1, h.2.2.1, h.2.2.2⟩

end OcisProxy
